import Mathlib

/-!
Shallow embedding of the `cqrtraffic` data-loading and model-fitting code
(`cqrtraffic/utils/load.py` and `cqrtraffic/fintraffic.py`).

The raw CSV rows delivered by the Fintraffic server are modelled by
`RawRecord`, keeping exactly the columns the Python code reads
(`total_time`, `direction`, `vehicle`, `faulty`).  The HTTP server is
modelled as a deterministic oracle mapping the request key
(`tms_id`, `year`, `day`) to a status code and a parsed row list; the real
URL encodes the station id, the last two digits of the year and the day,
so the oracle is keyed by these same inputs.  Python `assert` failures and
raised exceptions are modelled as `Except.error` carrying the assertion
message.  Observable side effects needed by the specification claims are
threaded explicitly: issued warnings, console prints of
`read_several_reports`, and the number of per-day network retrieval
attempts (one per `requests.get` probe of a day's URL).
-/

/-- One raw vehicle-detection row of the Fintraffic CSV, restricted to the
columns `load.py` actually reads: `total_time` (hundredths of seconds since
midnight), `direction`, `vehicle` (class code) and `faulty`. -/
structure RawRecord where
  total_time : Int
  direction : Int
  vehicle : Int
  faulty : Int
deriving DecidableEq

/-- A row of the DataFrame returned by `read_report`: the raw columns plus
the derived columns added in `load.py` lines 103-110.  The `date` column
(`datetime.date(year, 1, 1) + timedelta(day - 1)`) is represented by the
pair of inputs it is computed from, `(date_year, date_day)`. -/
structure ProcRecord where
  date_year : Int
  date_day : Int
  total_time : Int
  direction : Int
  vehicle : Int
  faulty : Int
  cars : Int
  buses : Int
  trucks : Int
deriving DecidableEq

/-- The per-row column additions of `read_report` (load.py lines 103-110):
the date stamp and the vehicle-class indicator columns
`cars` (`1 if x == 1 else 0`), `buses` (`1 if x == 3 else 0`) and
`trucks` (`1 if x == 2 or x == 4 or x == 5 or x == 6 or x == 7 else 0`). -/
def mkProc (year day : Int) (r : RawRecord) : ProcRecord :=
  { date_year := year
    date_day := day
    total_time := r.total_time
    direction := r.direction
    vehicle := r.vehicle
    faulty := r.faulty
    cars := if r.vehicle = 1 then 1 else 0
    buses := if r.vehicle = 3 then 1 else 0
    trucks := if r.vehicle = 2 ∨ r.vehicle = 4 ∨ r.vehicle = 5 ∨ r.vehicle = 6 ∨ r.vehicle = 7
              then 1 else 0 }

/-- An HTTP response of the Fintraffic server for one day's CSV url:
the status code returned by `requests.get`, and the parsed rows that
`pd.read_csv` would deliver when the fetch succeeds (status 200). -/
structure HttpResponse where
  status : Nat
  rows : List RawRecord

/-- The assertion message of load.py line 72. -/
def msgHourFrom : String :=
  "Error: the hour_from is incorrect, it should be 0 <= hour_from < 24"

/-- The assertion message of load.py line 73. -/
def msgHourTo : String :=
  "Error: the hour_to is incorrect, it should be 0 < hour_to <= 24"

/-- The assertion message of load.py line 74. -/
def msgHourOrder : String :=
  "Error: the hour_to should be less than hour_to"

/-- The assertion message of load.py line 75. -/
def msgDay : String :=
  "Error: the day is incorrect, it should be 1 < day < 366"

/-- The assertion message of load.py line 76. -/
def msgYear : String :=
  "Error: the data is available starting from year 1995 only "

/-- The assertion message of load.py line 77. -/
def msgDirection : String :=
  "Error: direction must be either 1 or 2, check TMS station description"

/-- The exception `pd.read_csv` raises when the url fetch fails with a
non-404 failure status (load.py line 100). -/
def msgHttp : String := "HTTPError"

/-- The assertion message guarding the `.gzip` save-name format
(load.py lines 131-133 and 267-269). -/
def msgSaveFormat : String :=
  "Error: Filename is wrong, please, provide it in *.gzip format"

/-- The assertion message of load.py line 255. -/
def msgNotLoaded : String :=
  "Error: Data was not loaded, check the input given."

/-- The warning issued when the day's data does not exist
(load.py lines 140-151). -/
def emptyDayWarning (tms_id year day : Int) : String :=
  "Warning: The data for the TMS " ++ toString tms_id ++ " for the day "
    ++ toString day ++ " of year " ++ toString year ++ " does not exist. "
    ++ "Try to select another day. An empty pd.DataFrame will be returned."

/-- The warning issued when a save was requested but no data was loaded
(load.py lines 152-155). -/
def saveImpossibleWarning : String :=
  "Warning: It is impossible to save a file, as data was not loaded. Check warning above."

/-- The success print of `read_several_reports` (load.py lines 261-263),
with the timing fragment omitted (wall-clock text is not modelled). -/
def successMsg (counter n : Nat) : String :=
  "Loading sucessful: " ++ toString counter ++ " out of " ++ toString n
    ++ " files loaded"

/-- The confirmation print after a successful save (load.py line 271). -/
def savedMsg (name : String) : String :=
  "Data is successfully saved to " ++ name

/-- The DataFrame transformations `read_report` applies to the parsed CSV
rows, in source order (load.py lines 103-121): add the date and the
vehicle-class columns, drop faulty rows when `delete_if_faulty` is set
(`df[df.faulty != 1]`), keep `df.total_time >= hour_from * 60 * 60 * 100`,
keep `df.total_time <= hour_to * 60 * 60 * 100` and keep
`df.direction == direction`. -/
def processReport (year day direction hour_from hour_to : Int)
    (delete_if_faulty : Bool) (rows : List RawRecord) : List ProcRecord :=
  let df0 := rows.map (mkProc year day)
  let df1 := if delete_if_faulty then df0.filter (fun r => decide (r.faulty ≠ 1)) else df0
  let df2 := df1.filter (fun r => decide (r.total_time ≥ hour_from * 60 * 60 * 100))
  let df3 := df2.filter (fun r => decide (r.total_time ≤ hour_to * 60 * 60 * 100))
  df3.filter (fun r => decide (r.direction = direction))

/-- Observable outcome of one `read_report` call: the returned DataFrame or
the raised error, the warnings issued, and the number of per-day network
retrieval attempts (the `requests.get` probe of the day's url). -/
structure ReportRun where
  res : Except String (List ProcRecord)
  warnings : List String
  retrievals : Nat

/-- Embedding of `read_report` (load.py lines 14-156).  The six `assert`
statements are checked in source order before any network access; then the
day's url is probed once (`requests.get`).  A 404 status returns an empty
DataFrame with a warning; any other status lets `pd.read_csv` fetch the
url, which parses the rows on a successful fetch (status 200) and raises
on a failure status.  A parsed DataFrame is processed by `processReport`
and optionally saved, which asserts the `.gzip` suffix of `save_name`. -/
def read_report (tms_id year day direction hour_from hour_to : Int)
    (delete_if_faulty : Bool) (save_name : Option String)
    (server : Int → Int → Int → HttpResponse) : ReportRun :=
  if ¬ (0 ≤ hour_from ∧ hour_from < 24) then ⟨.error msgHourFrom, [], 0⟩
  else if ¬ (0 < hour_to ∧ hour_to ≤ 24) then ⟨.error msgHourTo, [], 0⟩
  else if ¬ (hour_from < hour_to) then ⟨.error msgHourOrder, [], 0⟩
  else if ¬ (1 ≤ day ∧ day ≤ 366) then ⟨.error msgDay, [], 0⟩
  else if ¬ (1995 ≤ year) then ⟨.error msgYear, [], 0⟩
  else if ¬ (direction = 1 ∨ direction = 2) then ⟨.error msgDirection, [], 0⟩
  else
    let resp := server tms_id year day
    if resp.status ≠ 404 then
      if resp.status = 200 then
        let df := processReport year day direction hour_from hour_to delete_if_faulty resp.rows
        match save_name with
        | none => ⟨.ok df, [], 1⟩
        | some name =>
          if name.toLower.endsWith ".gzip" then ⟨.ok df, [], 1⟩
          else ⟨.error msgSaveFormat, [], 1⟩
      else ⟨.error msgHttp, [], 1⟩
    else
      match save_name with
      | none => ⟨.ok [], [emptyDayWarning tms_id year day], 1⟩
      | some _ => ⟨.ok [], [emptyDayWarning tms_id year day, saveImpossibleWarning], 1⟩

/-- Observable outcome of one `read_several_reports` call: the returned
DataFrame or the raised error, the final value of the success `counter`,
the console prints issued after the loop, and the total number of per-day
network retrieval attempts. -/
structure SeveralRun where
  res : Except String (List ProcRecord)
  counter : Nat
  prints : List String
  retrievals : Nat

/-- The per-day loop of `read_several_reports` (load.py lines 222-253),
threading the accumulated DataFrame, the success counter and the retrieval
count.  Each day is read with `save_name=None`; a raised error propagates;
a non-empty `read_df` is kept (assigned when `df` is still empty,
concatenated otherwise) and bumps the counter. -/
def loadLoop (tms_id direction hour_from hour_to : Int) (delete_if_faulty : Bool)
    (server : Int → Int → Int → HttpResponse) :
    List (Int × Int) → List ProcRecord → Nat → Nat →
      Except String (List ProcRecord) × Nat × Nat
  | [], df, counter, retr => (.ok df, counter, retr)
  | value :: rest, df, counter, retr =>
    let run := read_report tms_id value.1 value.2 direction hour_from hour_to
        delete_if_faulty none server
    match run.res with
    | .error e => (.error e, counter, retr + run.retrievals)
    | .ok read_df =>
      if df.isEmpty then
        if read_df.isEmpty = false then
          loadLoop tms_id direction hour_from hour_to delete_if_faulty server
            rest read_df (counter + 1) (retr + run.retrievals)
        else
          loadLoop tms_id direction hour_from hour_to delete_if_faulty server
            rest df counter (retr + run.retrievals)
      else
        if read_df.isEmpty = false then
          loadLoop tms_id direction hour_from hour_to delete_if_faulty server
            rest (df ++ read_df) (counter + 1) (retr + run.retrievals)
        else
          loadLoop tms_id direction hour_from hour_to delete_if_faulty server
            rest df counter (retr + run.retrievals)

/-- Embedding of `read_several_reports` (load.py lines 160-273).  The four
`assert` statements are checked in source order before the loop; the loop
reads each `(year, day)` pair in list order; afterwards the
`df.empty is False` assertion raises when nothing was loaded, the success
message naming the counter is printed, and a requested save asserts the
`.gzip` suffix.  The Python function returns only the DataFrame (`res`);
`counter`, `prints` and `retrievals` record the other observables. -/
def read_several_reports (tms_id : Int) (year_day_list : List (Int × Int))
    (direction hour_from hour_to : Int) (delete_if_faulty : Bool)
    (save_name : Option String)
    (server : Int → Int → Int → HttpResponse) : SeveralRun :=
  if ¬ (0 ≤ hour_from ∧ hour_from < 24) then ⟨.error msgHourFrom, 0, [], 0⟩
  else if ¬ (0 < hour_to ∧ hour_to ≤ 24) then ⟨.error msgHourTo, 0, [], 0⟩
  else if ¬ (hour_from < hour_to) then ⟨.error msgHourOrder, 0, [], 0⟩
  else if ¬ (direction = 1 ∨ direction = 2) then ⟨.error msgDirection, 0, [], 0⟩
  else
    match loadLoop tms_id direction hour_from hour_to delete_if_faulty server
        year_day_list [] 0 0 with
    | (.error e, counter, retr) => ⟨.error e, counter, [], retr⟩
    | (.ok df, counter, retr) =>
      if df.isEmpty then ⟨.error msgNotLoaded, counter, [], retr⟩
      else
        match save_name with
        | none => ⟨.ok df, counter, [successMsg counter year_day_list.length], retr⟩
        | some name =>
          if name.toLower.endsWith ".gzip" then
            ⟨.ok df, counter, [successMsg counter year_day_list.length, savedMsg name], retr⟩
          else
            ⟨.error msgSaveFormat, counter, [successMsg counter year_day_list.length], retr⟩

/-- The rows one `(year, day)` pair contributes inside the loop of
`read_several_reports`: the DataFrame its `read_report` call returns, or
no rows when that call raises. -/
def dayRows (tms_id direction hour_from hour_to : Int) (delete_if_faulty : Bool)
    (server : Int → Int → Int → HttpResponse) (p : Int × Int) : List ProcRecord :=
  match (read_report tms_id p.1 p.2 direction hour_from hour_to
      delete_if_faulty none server).res with
  | .ok df => df
  | .error _ => []

/-- The bagged dataset attributes `weighted_model` reads from the station
object (`self.bag_data.centroid_flow`, `self.bag_data.centroid_density`
and `self.weight`, which `bagging` sets to `self.bag_data["weight"]`). -/
structure BagData where
  centroid_density : List ℚ
  centroid_flow : List ℚ
  weight : List ℚ

/-- The external `pystoned.wCQER.wCQR` solver object as `weighted_model`
manipulates it: the data and quantile it was constructed with, the lower
bound currently placed on its `beta` coefficient, and whether `optimize`
has been invoked. -/
structure WCQRModel where
  y : List ℚ
  x : List ℚ
  w : List ℚ
  tau : ℚ
  beta_lb : Option ℚ
  optimized : Bool
deriving DecidableEq

/-- Construction `wCQR(y=..., x=..., w=..., tau=tau)`; the solver installs
its own default lower bound on `beta`, modelled by the oracle
`default_beta_lb`. -/
def wCQR (default_beta_lb : Option ℚ) (y x w : List ℚ) (tau : ℚ) : WCQRModel :=
  ⟨y, x, w, tau, default_beta_lb, false⟩

/-- The call `model.__model__.beta.setlb(None)` (fintraffic.py line 85). -/
def setlbNone (m : WCQRModel) : WCQRModel := { m with beta_lb := none }

/-- The call `model.optimize(...)` (fintraffic.py lines 86-89); both the
email and the plain branch invoke the solve. -/
def optimizeModel (m : WCQRModel) : WCQRModel := { m with optimized := true }

/-- One observable step `weighted_model` performs on the external solver
for a given quantile: constructing the model, disabling the lower bound on
`beta`, or invoking the solve. -/
inductive SolverEvent where
  | construct (tau : ℚ)
  | setlb (tau : ℚ)
  | solve (tau : ℚ)
deriving DecidableEq

/-- Result of one `weighted_model` call: the `self.bagged_model` list, the
`self.time_weighted` list of wall-clock durations, and the ordered trace
of solver interactions. -/
structure ModelRun where
  bagged_model : List WCQRModel
  time_weighted : List ℚ
  events : List SolverEvent

/-- The per-tau loop of `weighted_model` (fintraffic.py lines 77-92).  The
wall clock `time.perf_counter()` is an oracle stream read at index `i` for
the iteration's start and `i + 1` for its end; each iteration constructs
the solver model on the bagged data, sets the `beta` lower bound to
`None`, optimizes, appends the model and records `end_time - start_time`. -/
def wmLoop (default_beta_lb : Option ℚ) (bag : BagData) (clock : Nat → ℚ) :
    List ℚ → Nat → ModelRun
  | [], _ => ⟨[], [], []⟩
  | tau :: rest, i =>
    let start_time := clock i
    let model := wCQR default_beta_lb bag.centroid_flow bag.centroid_density bag.weight tau
    let model := setlbNone model
    let model := optimizeModel model
    let end_time := clock (i + 1)
    let restRun := wmLoop default_beta_lb bag clock rest (i + 2)
    ⟨model :: restRun.bagged_model,
     (end_time - start_time) :: restRun.time_weighted,
     SolverEvent.construct tau :: SolverEvent.setlb tau :: SolverEvent.solve tau
       :: restRun.events⟩

/-- Embedding of `FintrafficTMS.weighted_model` (fintraffic.py lines
72-92): `self.bagged_model` and `self.time_weighted` are reset to empty
lists, a `None` tau list falls back to `self.tau_list`, and the per-tau
loop runs over the effective list.  The `email` argument only selects
which `optimize` overload is called and does not change the trace shape. -/
def weighted_model (self_tau_list : List ℚ) (tau_list : Option (List ℚ))
    (email : Option String) (default_beta_lb : Option ℚ) (bag : BagData)
    (clock : Nat → ℚ) : ModelRun :=
  let taus := match tau_list with
    | none => self_tau_list
    | some l => l
  wmLoop default_beta_lb bag clock taus 0

/-! ### Helper lemmas about the record pipeline -/

theorem mem_processReport {year day direction hour_from hour_to : Int}
    {delete_if_faulty : Bool} {rows : List RawRecord} {r : ProcRecord}
    (h : r ∈ processReport year day direction hour_from hour_to delete_if_faulty rows) :
    (∃ raw ∈ rows, r = mkProc year day raw) ∧ r.direction = direction ∧
      (delete_if_faulty = true → r.faulty ≠ 1) ∧
      hour_from * 60 * 60 * 100 ≤ r.total_time ∧
      r.total_time ≤ hour_to * 60 * 60 * 100 := by
  simp only [processReport] at h
  rcases List.mem_filter.mp h with ⟨h3, hdir⟩
  rcases List.mem_filter.mp h3 with ⟨h2, hle⟩
  rcases List.mem_filter.mp h2 with ⟨h1, hge⟩
  have hdir' : r.direction = direction := of_decide_eq_true hdir
  have hle' : r.total_time ≤ hour_to * 60 * 60 * 100 := of_decide_eq_true hle
  have hge' : r.total_time ≥ hour_from * 60 * 60 * 100 := of_decide_eq_true hge
  by_cases hd : delete_if_faulty = true
  · rw [if_pos hd] at h1
    rcases List.mem_filter.mp h1 with ⟨h0, hf⟩
    rcases List.mem_map.mp h0 with ⟨raw, hraw, hmk⟩
    exact ⟨⟨raw, hraw, hmk.symm⟩, hdir', fun _ => of_decide_eq_true hf, hge', hle'⟩
  · rw [if_neg hd] at h1
    rcases List.mem_map.mp h1 with ⟨raw, hraw, hmk⟩
    exact ⟨⟨raw, hraw, hmk.symm⟩, hdir', fun hdt => absurd hdt hd, hge', hle'⟩

theorem read_report_ok_cases {tms_id year day direction hour_from hour_to : Int}
    {delete_if_faulty : Bool} {save_name : Option String}
    {server : Int → Int → Int → HttpResponse} {df : List ProcRecord}
    (h : (read_report tms_id year day direction hour_from hour_to delete_if_faulty
        save_name server).res = .ok df) :
    df = [] ∨ df = processReport year day direction hour_from hour_to delete_if_faulty
      (server tms_id year day).rows := by
  unfold read_report at h
  repeat' split at h
  all_goals try simp_all
  all_goals repeat' split at h
  all_goals simp_all

/-! ### Concrete sample worlds used by witnesses and counterexamples -/

/-- Four in-window, non-faulty, direction-1 rows with class codes 1 (car),
3 (bus), 5 (truck) and 9 (uncounted). -/
def sampleRows : List RawRecord :=
  [⟨2200000, 1, 1, 0⟩, ⟨2300000, 1, 3, 0⟩, ⟨2400000, 1, 5, 0⟩, ⟨2500000, 1, 9, 0⟩]

/-- A server that answers every day with status 200 and `sampleRows`. -/
def sampleServer : Int → Int → Int → HttpResponse := fun _ _ _ => ⟨200, sampleRows⟩

/-- The DataFrame `read_report` returns for `sampleServer` on day 5 of
2021 with direction 1, hours 6 to 20 and faulty deletion on. -/
def sampleDf : List ProcRecord := sampleRows.map (mkProc 2021 5)

/-- A raw row whose time of day is exactly `hour_to * 360000` for
`hour_to = 20`, i.e. exactly 20:00:00.00. -/
def boundaryRow : RawRecord := ⟨7200000, 1, 1, 0⟩

/-- A server whose only published row sits exactly on the upper hour
boundary. -/
def boundaryServer : Int → Int → Int → HttpResponse := fun _ _ _ => ⟨200, [boundaryRow]⟩

/-! ### C1 -/

/-- C1 (code evaluated at the failing input): the claim says no returned
record's total_time equals or exceeds `hour_to * 360000`, but with
`hour_to = 20` the code retains a record at exactly
`total_time = 20 * 360000 = 7200000`, because load.py line 118 filters
with the inclusive comparison `df.total_time <= hour_to * 60 * 60 * 100`,
contradicting the docstring of `hour_to` ("this hour is not included"). -/
theorem read_report_keeps_upper_boundary :
    (read_report 123 2021 5 1 6 20 true none boundaryServer).res
      = .ok [mkProc 2021 5 boundaryRow] ∧
    (mkProc 2021 5 boundaryRow).total_time = 20 * 60 * 60 * 100 := ⟨rfl, rfl⟩

/-! ### C4 -/

/-- C4: every record in a DataFrame returned by `read_report` has its
direction field equal to the requested direction, and when
`delete_if_faulty` is true no record has its faulty flag equal to 1. -/
theorem read_report_direction_faulty
    (tms_id year day direction hour_from hour_to : Int) (delete_if_faulty : Bool)
    (save_name : Option String) (server : Int → Int → Int → HttpResponse)
    (df : List ProcRecord)
    (h : (read_report tms_id year day direction hour_from hour_to delete_if_faulty
        save_name server).res = .ok df) :
    ∀ r ∈ df, r.direction = direction ∧ (delete_if_faulty = true → r.faulty ≠ 1) := by
  intro r hr
  rcases read_report_ok_cases h with rfl | rfl
  · cases hr
  · obtain ⟨-, hdir, hfaulty, -, -⟩ := mem_processReport hr
    exact ⟨hdir, hfaulty⟩

/-- Witness for C4 at a concrete world: the sample run returns `sampleDf`
and every record of it satisfies the direction and faulty properties. -/
theorem read_report_direction_faulty_witness :
    (read_report 123 2021 5 1 6 20 true none sampleServer).res = .ok sampleDf ∧
    (∀ r ∈ sampleDf, r.direction = 1 ∧ (true = true → r.faulty ≠ 1)) :=
  ⟨rfl, read_report_direction_faulty 123 2021 5 1 6 20 true none sampleServer sampleDf rfl⟩

/-! ### C5 -/

/-- C5: for every record in a DataFrame returned by `read_report`, the
derived indicator columns follow the fixed classification table: car iff
class 1, bus iff class 3, truck iff class in 2, 4, 5, 6, 7, and none of
the three for any other class code. -/
theorem read_report_vehicle_classification
    (tms_id year day direction hour_from hour_to : Int) (delete_if_faulty : Bool)
    (save_name : Option String) (server : Int → Int → Int → HttpResponse)
    (df : List ProcRecord)
    (h : (read_report tms_id year day direction hour_from hour_to delete_if_faulty
        save_name server).res = .ok df) :
    ∀ r ∈ df,
      (r.cars = 1 ↔ r.vehicle = 1) ∧ (r.buses = 1 ↔ r.vehicle = 3) ∧
      (r.trucks = 1 ↔
        (r.vehicle = 2 ∨ r.vehicle = 4 ∨ r.vehicle = 5 ∨ r.vehicle = 6 ∨ r.vehicle = 7)) ∧
      (r.vehicle ≠ 1 ∧ r.vehicle ≠ 3 ∧
          ¬(r.vehicle = 2 ∨ r.vehicle = 4 ∨ r.vehicle = 5 ∨ r.vehicle = 6 ∨ r.vehicle = 7) →
        r.cars = 0 ∧ r.buses = 0 ∧ r.trucks = 0) := by
  intro r hr
  rcases read_report_ok_cases h with rfl | rfl
  · cases hr
  · obtain ⟨⟨raw, -, rfl⟩, -, -, -, -⟩ := mem_processReport hr
    simp only [mkProc]
    refine ⟨?_, ?_, ?_, ?_⟩
    · split <;> simp_all
    · split <;> simp_all
    · split <;> simp_all
    · rintro ⟨h1, h3, ht⟩
      rw [if_neg h1, if_neg h3, if_neg ht]
      exact ⟨rfl, rfl, rfl⟩

/-- Witness for C5 at a concrete world: the sample run returns `sampleDf`
and every record of it follows the classification table. -/
theorem read_report_vehicle_classification_witness :
    (read_report 123 2021 5 1 6 20 true none sampleServer).res = .ok sampleDf ∧
    (∀ r ∈ sampleDf,
      (r.cars = 1 ↔ r.vehicle = 1) ∧ (r.buses = 1 ↔ r.vehicle = 3) ∧
      (r.trucks = 1 ↔
        (r.vehicle = 2 ∨ r.vehicle = 4 ∨ r.vehicle = 5 ∨ r.vehicle = 6 ∨ r.vehicle = 7)) ∧
      (r.vehicle ≠ 1 ∧ r.vehicle ≠ 3 ∧
          ¬(r.vehicle = 2 ∨ r.vehicle = 4 ∨ r.vehicle = 5 ∨ r.vehicle = 6 ∨ r.vehicle = 7) →
        r.cars = 0 ∧ r.buses = 0 ∧ r.trucks = 0)) :=
  ⟨rfl, read_report_vehicle_classification 123 2021 5 1 6 20 true none sampleServer
    sampleDf rfl⟩

/-! ### Behaviour of read_report on valid parameters -/

theorem read_report_valid_isOk
    {tms_id year day direction hour_from hour_to : Int} {delete_if_faulty : Bool}
    {server : Int → Int → Int → HttpResponse}
    (hhf : 0 ≤ hour_from ∧ hour_from < 24) (hht : 0 < hour_to ∧ hour_to ≤ 24)
    (hlt : hour_from < hour_to) (hday : 1 ≤ day ∧ day ≤ 366) (hyear : 1995 ≤ year)
    (hdir : direction = 1 ∨ direction = 2)
    (hstat : (server tms_id year day).status = 404 ∨ (server tms_id year day).status = 200) :
    ∃ l, (read_report tms_id year day direction hour_from hour_to delete_if_faulty
        none server).res = .ok l ∧
      (read_report tms_id year day direction hour_from hour_to delete_if_faulty
        none server).retrievals = 1 := by
  simp only [read_report]
  rw [if_neg (not_not_intro hhf), if_neg (not_not_intro hht), if_neg (not_not_intro hlt),
    if_neg (not_not_intro hday), if_neg (not_not_intro hyear), if_neg (not_not_intro hdir)]
  rcases hstat with h404 | h200
  · rw [if_neg (not_not_intro h404)]
    exact ⟨[], rfl, rfl⟩
  · rw [if_pos (by simp [h200]), if_pos h200]
    exact ⟨_, rfl, rfl⟩

theorem dayRows_eq {tms_id year day direction hour_from hour_to : Int}
    {delete_if_faulty : Bool} {server : Int → Int → Int → HttpResponse}
    {l : List ProcRecord}
    (h : (read_report tms_id year day direction hour_from hour_to delete_if_faulty
        none server).res = .ok l) :
    dayRows tms_id direction hour_from hour_to delete_if_faulty server (year, day) = l := by
  simp only [dayRows, h]

theorem loadLoop_spec
    {tms_id direction hour_from hour_to : Int} {delete_if_faulty : Bool}
    {server : Int → Int → Int → HttpResponse}
    (hhf : 0 ≤ hour_from ∧ hour_from < 24) (hht : 0 < hour_to ∧ hour_to ≤ 24)
    (hlt : hour_from < hour_to) (hdir : direction = 1 ∨ direction = 2) :
    ∀ (l : List (Int × Int)),
      (∀ p ∈ l, (1 ≤ p.2 ∧ p.2 ≤ 366) ∧ 1995 ≤ p.1) →
      (∀ p ∈ l, (server tms_id p.1 p.2).status = 404 ∨ (server tms_id p.1 p.2).status = 200) →
      ∀ df counter retr,
      loadLoop tms_id direction hour_from hour_to delete_if_faulty server l df counter retr
        = (.ok (df ++ l.flatMap
              (dayRows tms_id direction hour_from hour_to delete_if_faulty server)),
           counter + l.countP
              (fun p => !(dayRows tms_id direction hour_from hour_to delete_if_faulty
                server p).isEmpty),
           retr + l.length) := by
  intro l
  induction l with
  | nil =>
    intro _ _ df counter retr
    simp [loadLoop]
  | cons p rest ih =>
    intro hdays hstat df counter retr
    obtain ⟨l0, hres, hretr⟩ :=
      @read_report_valid_isOk tms_id p.1 p.2 direction hour_from hour_to delete_if_faulty
        server hhf hht hlt
        (hdays p (List.mem_cons_self p rest)).1 (hdays p (List.mem_cons_self p rest)).2 hdir
        (hstat p (List.mem_cons_self p rest))
    have hdr : dayRows tms_id direction hour_from hour_to delete_if_faulty server p = l0 := by
      have := dayRows_eq hres
      simpa using this
    have ih' := ih (fun q hq => hdays q (List.mem_cons_of_mem p hq))
      (fun q hq => hstat q (List.mem_cons_of_mem p hq))
    simp only [loadLoop, hres, hretr]
    rcases df with - | ⟨d, ds⟩ <;> rcases l0 with - | ⟨x, xs⟩ <;>
      simp only [List.isEmpty_nil, List.isEmpty_cons, eq_self_iff_true,
        Bool.false_eq_true, Bool.true_eq_false, if_true, if_false] <;>
      rw [ih']
    all_goals simp [hdr, List.countP_cons, List.append_assoc, Prod.mk.injEq]
    all_goals try omega

theorem read_several_reports_spec
    {tms_id direction hour_from hour_to : Int} {delete_if_faulty : Bool}
    {server : Int → Int → Int → HttpResponse}
    (hhf : 0 ≤ hour_from ∧ hour_from < 24) (hht : 0 < hour_to ∧ hour_to ≤ 24)
    (hlt : hour_from < hour_to) (hdir : direction = 1 ∨ direction = 2)
    (l : List (Int × Int))
    (hdays : ∀ p ∈ l, (1 ≤ p.2 ∧ p.2 ≤ 366) ∧ 1995 ≤ p.1)
    (hstat : ∀ p ∈ l, (server tms_id p.1 p.2).status = 404 ∨
      (server tms_id p.1 p.2).status = 200) :
    read_several_reports tms_id l direction hour_from hour_to delete_if_faulty none server
      = if (l.flatMap (dayRows tms_id direction hour_from hour_to delete_if_faulty
            server)).isEmpty then
          ⟨.error msgNotLoaded,
           l.countP (fun p => !(dayRows tms_id direction hour_from hour_to delete_if_faulty
             server p).isEmpty), [], l.length⟩
        else
          ⟨.ok (l.flatMap (dayRows tms_id direction hour_from hour_to delete_if_faulty
             server)),
           l.countP (fun p => !(dayRows tms_id direction hour_from hour_to delete_if_faulty
             server p).isEmpty),
           [successMsg (l.countP (fun p => !(dayRows tms_id direction hour_from hour_to
             delete_if_faulty server p).isEmpty)) l.length],
           l.length⟩ := by
  simp only [read_several_reports]
  rw [if_neg (not_not_intro hhf), if_neg (not_not_intro hht), if_neg (not_not_intro hlt),
    if_neg (not_not_intro hdir)]
  rw [loadLoop_spec hhf hht hlt hdir l hdays hstat [] 0 0]
  simp only [List.nil_append, Nat.zero_add]

theorem read_report_404_empty
    {tms_id year day direction hour_from hour_to : Int} {delete_if_faulty : Bool}
    {save_name : Option String} {server : Int → Int → Int → HttpResponse}
    (hhf : 0 ≤ hour_from ∧ hour_from < 24) (hht : 0 < hour_to ∧ hour_to ≤ 24)
    (hlt : hour_from < hour_to) (hday : 1 ≤ day ∧ day ≤ 366) (hyear : 1995 ≤ year)
    (hdir : direction = 1 ∨ direction = 2)
    (h404 : (server tms_id year day).status = 404) :
    (read_report tms_id year day direction hour_from hour_to delete_if_faulty
        save_name server).res = .ok [] ∧
    (read_report tms_id year day direction hour_from hour_to delete_if_faulty
        save_name server).warnings ≠ [] := by
  simp only [read_report]
  rw [if_neg (not_not_intro hhf), if_neg (not_not_intro hht), if_neg (not_not_intro hlt),
    if_neg (not_not_intro hday), if_neg (not_not_intro hyear), if_neg (not_not_intro hdir),
    if_neg (not_not_intro h404)]
  cases save_name <;> exact ⟨rfl, by simp⟩

/-! ### C3 -/

/-- C3: under valid parameters, with every requested day either published
(status 200) or absent (status 404), `read_several_reports` raises an
error exactly when every requested day yields an empty retrieval result,
and otherwise returns the concatenation of the days' records in
input-list order (empty days contributing nothing). -/
theorem read_several_reports_fail_iff
    (tms_id direction hour_from hour_to : Int) (delete_if_faulty : Bool)
    (server : Int → Int → Int → HttpResponse) (l : List (Int × Int))
    (hhf : 0 ≤ hour_from ∧ hour_from < 24) (hht : 0 < hour_to ∧ hour_to ≤ 24)
    (hlt : hour_from < hour_to) (hdir : direction = 1 ∨ direction = 2)
    (hdays : ∀ p ∈ l, (1 ≤ p.2 ∧ p.2 ≤ 366) ∧ 1995 ≤ p.1)
    (hstat : ∀ p ∈ l, (server tms_id p.1 p.2).status = 404 ∨
      (server tms_id p.1 p.2).status = 200) :
    ((∃ e, (read_several_reports tms_id l direction hour_from hour_to delete_if_faulty
        none server).res = .error e) ↔
      ∀ p ∈ l, dayRows tms_id direction hour_from hour_to delete_if_faulty server p = []) ∧
    ((∃ p ∈ l, dayRows tms_id direction hour_from hour_to delete_if_faulty server p ≠ []) →
      (read_several_reports tms_id l direction hour_from hour_to delete_if_faulty
        none server).res
        = .ok (l.flatMap (dayRows tms_id direction hour_from hour_to delete_if_faulty
            server))) := by
  rw [read_several_reports_spec hhf hht hlt hdir l hdays hstat]
  by_cases hemp : (l.flatMap (dayRows tms_id direction hour_from hour_to delete_if_faulty
      server)).isEmpty
  · rw [if_pos hemp]
    have hall : ∀ p ∈ l, dayRows tms_id direction hour_from hour_to delete_if_faulty
        server p = [] :=
      List.flatMap_eq_nil_iff.mp (List.isEmpty_iff.mp hemp)
    constructor
    · simp only [true_iff, iff_true]
      constructor
      · intro _; exact hall
      · intro _; exact ⟨msgNotLoaded, rfl⟩
    · rintro ⟨p, hp, hne⟩
      exact absurd (hall p hp) hne
  · rw [if_neg hemp]
    constructor
    · constructor
      · rintro ⟨e, he⟩; cases he
      · intro hall
        exact absurd (List.isEmpty_iff.mpr (List.flatMap_eq_nil_iff.mpr hall)) hemp
    · intro _; rfl

/-- Witness for C3 at a concrete world where both requested days publish
data. -/
theorem read_several_reports_fail_iff_witness :
    ((0 : Int) ≤ 6 ∧ (6 : Int) < 24) ∧ ((0 : Int) < 20 ∧ (20 : Int) ≤ 24) ∧
    ((6 : Int) < 20) ∧ ((1 : Int) = 1 ∨ (1 : Int) = 2) ∧
    (∀ p ∈ [((2021 : Int), (5 : Int)), (2021, 6)], (1 ≤ p.2 ∧ p.2 ≤ 366) ∧ 1995 ≤ p.1) ∧
    (∀ p ∈ [((2021 : Int), (5 : Int)), (2021, 6)],
      (sampleServer 1 p.1 p.2).status = 404 ∨ (sampleServer 1 p.1 p.2).status = 200) ∧
    (((∃ e, (read_several_reports 1 [(2021, 5), (2021, 6)] 1 6 20 true
        none sampleServer).res = .error e) ↔
      ∀ p ∈ [((2021 : Int), (5 : Int)), (2021, 6)],
        dayRows 1 1 6 20 true sampleServer p = []) ∧
    ((∃ p ∈ [((2021 : Int), (5 : Int)), (2021, 6)],
        dayRows 1 1 6 20 true sampleServer p ≠ []) →
      (read_several_reports 1 [(2021, 5), (2021, 6)] 1 6 20 true none sampleServer).res
        = .ok ([((2021 : Int), (5 : Int)), (2021, 6)].flatMap
            (dayRows 1 1 6 20 true sampleServer)))) :=
  ⟨by decide, by decide, by decide, by decide, by decide, by decide,
    read_several_reports_fail_iff 1 1 6 20 true sampleServer [(2021, 5), (2021, 6)]
      (by decide) (by decide) (by decide) (by decide) (by decide) (by decide)⟩

/-! ### C2 -/

/-- An in-window, non-faulty, direction-1 car row used by the
success-count scenarios. -/
def cexRow : RawRecord := ⟨2200000, 1, 1, 0⟩

/-- A server publishing two copies of `cexRow` for every day. -/
def serverTwoRows : Int → Int → Int → HttpResponse := fun _ _ _ => ⟨200, [cexRow, cexRow]⟩

/-- A server publishing one copy of `cexRow` for every day. -/
def serverOneRow : Int → Int → Int → HttpResponse := fun _ _ _ => ⟨200, [cexRow]⟩

/-- C2 counterexample: two runs of `read_several_reports` whose returned
DataFrames are identical while their success counts differ (1 of 1
requested day versus 2 of 2 requested days), so the count M cannot be
obtained from the function's result; the Python function returns only the
DataFrame and reports the count in a console print. -/
theorem read_several_reports_count_not_obtainable :
    (read_several_reports 1 [(2021, 1)] 1 6 20 true none serverTwoRows).res
      = (read_several_reports 1 [(2021, 1), (2021, 1)] 1 6 20 true none serverOneRow).res ∧
    (read_several_reports 1 [(2021, 1)] 1 6 20 true none serverTwoRows).counter = 1 ∧
    (read_several_reports 1 [(2021, 1), (2021, 1)] 1 6 20 true none serverOneRow).counter = 2 :=
  ⟨rfl, rfl, rfl⟩

/-- C2 amended: the success count M equals the number of requested days
whose retrieval yielded a non-empty DataFrame, and it reaches the caller
only through the console success message naming M and N; it is not part
of the function's return value, which is the concatenated DataFrame
alone. -/
theorem read_several_reports_counter_spec
    (tms_id direction hour_from hour_to : Int) (delete_if_faulty : Bool)
    (server : Int → Int → Int → HttpResponse) (l : List (Int × Int))
    (hhf : 0 ≤ hour_from ∧ hour_from < 24) (hht : 0 < hour_to ∧ hour_to ≤ 24)
    (hlt : hour_from < hour_to) (hdir : direction = 1 ∨ direction = 2)
    (hdays : ∀ p ∈ l, (1 ≤ p.2 ∧ p.2 ≤ 366) ∧ 1995 ≤ p.1)
    (hstat : ∀ p ∈ l, (server tms_id p.1 p.2).status = 404 ∨
      (server tms_id p.1 p.2).status = 200) :
    (read_several_reports tms_id l direction hour_from hour_to delete_if_faulty
        none server).counter
      = l.countP (fun p => !(dayRows tms_id direction hour_from hour_to delete_if_faulty
          server p).isEmpty) ∧
    ((∃ p ∈ l, dayRows tms_id direction hour_from hour_to delete_if_faulty server p ≠ []) →
      (read_several_reports tms_id l direction hour_from hour_to delete_if_faulty
          none server).prints
        = [successMsg ((read_several_reports tms_id l direction hour_from hour_to
            delete_if_faulty none server).counter) l.length]) := by
  rw [read_several_reports_spec hhf hht hlt hdir l hdays hstat]
  by_cases hemp : (l.flatMap (dayRows tms_id direction hour_from hour_to delete_if_faulty
      server)).isEmpty
  · rw [if_pos hemp]
    refine ⟨rfl, ?_⟩
    rintro ⟨p, hp, hne⟩
    exact absurd (List.flatMap_eq_nil_iff.mp (List.isEmpty_iff.mp hemp) p hp) hne
  · rw [if_neg hemp]
    exact ⟨rfl, fun _ => rfl⟩

/-- A server that publishes `cexRow` for day 1 and answers 404 for every
other day. -/
def halfServer : Int → Int → Int → HttpResponse :=
  fun _ _ day => if day = 1 then ⟨200, [cexRow]⟩ else ⟨404, []⟩

/-- Witness for the amended C2 at a concrete world: one of the two
requested days is empty, the counter is 1, and the success print names
1 of 2. -/
theorem read_several_reports_counter_spec_witness :
    ((0 : Int) ≤ 6 ∧ (6 : Int) < 24) ∧ ((0 : Int) < 20 ∧ (20 : Int) ≤ 24) ∧
    ((6 : Int) < 20) ∧ ((1 : Int) = 1 ∨ (1 : Int) = 2) ∧
    (∀ p ∈ [((2021 : Int), (1 : Int)), (2021, 2)], (1 ≤ p.2 ∧ p.2 ≤ 366) ∧ 1995 ≤ p.1) ∧
    (∀ p ∈ [((2021 : Int), (1 : Int)), (2021, 2)],
      (halfServer 1 p.1 p.2).status = 404 ∨ (halfServer 1 p.1 p.2).status = 200) ∧
    ((read_several_reports 1 [(2021, 1), (2021, 2)] 1 6 20 true none halfServer).counter
      = [((2021 : Int), (1 : Int)), (2021, 2)].countP
          (fun p => !(dayRows 1 1 6 20 true halfServer p).isEmpty) ∧
    ((∃ p ∈ [((2021 : Int), (1 : Int)), (2021, 2)],
        dayRows 1 1 6 20 true halfServer p ≠ []) →
      (read_several_reports 1 [(2021, 1), (2021, 2)] 1 6 20 true none halfServer).prints
        = [successMsg ((read_several_reports 1 [(2021, 1), (2021, 2)] 1 6 20 true
            none halfServer).counter) ([((2021 : Int), (1 : Int)), (2021, 2)].length)])) :=
  ⟨by decide, by decide, by decide, by decide, by decide, by decide,
    read_several_reports_counter_spec 1 1 6 20 true halfServer [(2021, 1), (2021, 2)]
      (by decide) (by decide) (by decide) (by decide) (by decide) (by decide)⟩

/-- A server that answers every request with 404 and no rows. -/
def server404 : Int → Int → Int → HttpResponse := fun _ _ _ => ⟨404, []⟩

/-! ### C10 -/

/-- C10: with an empty `year_day_list` and valid parameters,
`read_several_reports` passes the parameter asserts, the loop body never
runs, and the final non-empty check raises exactly the
data-was-not-loaded assertion — the same error the all-days-empty case
raises — rather than a distinct invalid-parameter error. -/
theorem read_several_reports_empty_list_error
    (tms_id direction hour_from hour_to : Int) (delete_if_faulty : Bool)
    (server : Int → Int → Int → HttpResponse) (l : List (Int × Int))
    (hhf : 0 ≤ hour_from ∧ hour_from < 24) (hht : 0 < hour_to ∧ hour_to ≤ 24)
    (hlt : hour_from < hour_to) (hdir : direction = 1 ∨ direction = 2)
    (hdays : ∀ p ∈ l, (1 ≤ p.2 ∧ p.2 ≤ 366) ∧ 1995 ≤ p.1)
    (hall404 : ∀ p ∈ l, (server tms_id p.1 p.2).status = 404) :
    (read_several_reports tms_id [] direction hour_from hour_to delete_if_faulty
        none server).res = .error msgNotLoaded ∧
    (read_several_reports tms_id l direction hour_from hour_to delete_if_faulty
        none server).res = .error msgNotLoaded := by
  constructor
  · rw [read_several_reports_spec hhf hht hlt hdir [] (by simp) (by simp)]
    rfl
  · have hstat : ∀ p ∈ l, (server tms_id p.1 p.2).status = 404 ∨
        (server tms_id p.1 p.2).status = 200 := fun p hp => Or.inl (hall404 p hp)
    rw [read_several_reports_spec hhf hht hlt hdir l hdays hstat]
    have hall : ∀ p ∈ l, dayRows tms_id direction hour_from hour_to delete_if_faulty
        server p = [] := by
      intro p hp
      have h := @read_report_404_empty tms_id p.1 p.2 direction hour_from hour_to
        delete_if_faulty none server hhf hht hlt (hdays p hp).1
        (hdays p hp).2 hdir (hall404 p hp)
      have := dayRows_eq h.1
      simpa using this
    rw [if_pos (List.isEmpty_iff.mpr (List.flatMap_eq_nil_iff.mpr hall))]

/-- Witness for C10 at a concrete world: one valid requested day that the
server answers with 404. -/
theorem read_several_reports_empty_list_error_witness :
    ((0 : Int) ≤ 6 ∧ (6 : Int) < 24) ∧ ((0 : Int) < 20 ∧ (20 : Int) ≤ 24) ∧
    ((6 : Int) < 20) ∧ ((1 : Int) = 1 ∨ (1 : Int) = 2) ∧
    (∀ p ∈ [((2021 : Int), (3 : Int))], (1 ≤ p.2 ∧ p.2 ≤ 366) ∧ 1995 ≤ p.1) ∧
    (∀ p ∈ [((2021 : Int), (3 : Int))], (server404 1 p.1 p.2).status = 404) ∧
    ((read_several_reports 1 [] 1 6 20 true none server404).res = .error msgNotLoaded ∧
     (read_several_reports 1 [(2021, 3)] 1 6 20 true none server404).res
        = .error msgNotLoaded) :=
  ⟨by decide, by decide, by decide, by decide, by decide, by decide,
    read_several_reports_empty_list_error 1 1 6 20 true server404 [(2021, 3)]
      (by decide) (by decide) (by decide) (by decide) (by decide) (by decide)⟩

/-! ### C6 -/

/-- C6 counterexample: with a valid hour window and direction but an
out-of-range day-of-year in the second list entry, `read_several_reports`
attempts the network retrieval for the first day (one retrieval) and only
then fails on the second entry's day assert inside `read_report` — it
does not fail before any retrieval is attempted. -/
theorem read_several_reports_day_check_not_preflight :
    (read_several_reports 1 [(2021, 5), (2021, 400)] 1 6 20 true none server404).res
      = .error msgDay ∧
    (read_several_reports 1 [(2021, 5), (2021, 400)] 1 6 20 true
        none server404).retrievals = 1 ∧
    ¬ (read_several_reports 1 [(2021, 5), (2021, 400)] 1 6 20 true
        none server404).retrievals = 0 :=
  ⟨rfl, rfl, by decide⟩

/-- C6 amended: `read_report` checks its hour window, day-of-year and
direction before its retrieval and fails with zero retrieval attempts on
any invalid one; `read_several_reports` pre-flight-checks only the hour
window and the direction — an invalid day-of-year entry in its list is
detected inside `read_report` only when that entry is reached, possibly
after earlier days' retrievals. -/
theorem preflight_parameter_checks
    (tms_id year day direction hour_from hour_to : Int) (delete_if_faulty : Bool)
    (save_name : Option String) (server : Int → Int → Int → HttpResponse)
    (l : List (Int × Int)) :
    ((¬ (0 ≤ hour_from ∧ hour_from < 24) ∨ ¬ (0 < hour_to ∧ hour_to ≤ 24) ∨
        ¬ (hour_from < hour_to) ∨ ¬ (1 ≤ day ∧ day ≤ 366) ∨
        ¬ (direction = 1 ∨ direction = 2)) →
      (read_report tms_id year day direction hour_from hour_to delete_if_faulty
          save_name server).retrievals = 0 ∧
      ∃ e, (read_report tms_id year day direction hour_from hour_to delete_if_faulty
          save_name server).res = .error e) ∧
    ((¬ (0 ≤ hour_from ∧ hour_from < 24) ∨ ¬ (0 < hour_to ∧ hour_to ≤ 24) ∨
        ¬ (hour_from < hour_to) ∨ ¬ (direction = 1 ∨ direction = 2)) →
      (read_several_reports tms_id l direction hour_from hour_to delete_if_faulty
          save_name server).retrievals = 0 ∧
      ∃ e, (read_several_reports tms_id l direction hour_from hour_to delete_if_faulty
          save_name server).res = .error e) := by
  constructor
  · intro hbad
    simp only [read_report]
    by_cases h1 : 0 ≤ hour_from ∧ hour_from < 24
    case neg => rw [if_pos h1]; exact ⟨rfl, _, rfl⟩
    rw [if_neg (not_not_intro h1)]
    by_cases h2 : 0 < hour_to ∧ hour_to ≤ 24
    case neg => rw [if_pos h2]; exact ⟨rfl, _, rfl⟩
    rw [if_neg (not_not_intro h2)]
    by_cases h3 : hour_from < hour_to
    case neg => rw [if_pos h3]; exact ⟨rfl, _, rfl⟩
    rw [if_neg (not_not_intro h3)]
    by_cases h4 : 1 ≤ day ∧ day ≤ 366
    case neg => rw [if_pos h4]; exact ⟨rfl, _, rfl⟩
    rw [if_neg (not_not_intro h4)]
    by_cases h5 : 1995 ≤ year
    case neg => rw [if_pos h5]; exact ⟨rfl, _, rfl⟩
    rw [if_neg (not_not_intro h5)]
    by_cases h6 : direction = 1 ∨ direction = 2
    case neg => rw [if_pos h6]; exact ⟨rfl, _, rfl⟩
    exfalso
    rcases hbad with h | h | h | h | h
    exacts [absurd h1 h, absurd h2 h, absurd h3 h, absurd h4 h, absurd h6 h]
  · intro hbad
    simp only [read_several_reports]
    by_cases h1 : 0 ≤ hour_from ∧ hour_from < 24
    case neg => rw [if_pos h1]; exact ⟨rfl, _, rfl⟩
    rw [if_neg (not_not_intro h1)]
    by_cases h2 : 0 < hour_to ∧ hour_to ≤ 24
    case neg => rw [if_pos h2]; exact ⟨rfl, _, rfl⟩
    rw [if_neg (not_not_intro h2)]
    by_cases h3 : hour_from < hour_to
    case neg => rw [if_pos h3]; exact ⟨rfl, _, rfl⟩
    rw [if_neg (not_not_intro h3)]
    by_cases h4 : direction = 1 ∨ direction = 2
    case neg => rw [if_pos h4]; exact ⟨rfl, _, rfl⟩
    exfalso
    rcases hbad with h | h | h | h
    exacts [absurd h1 h, absurd h2 h, absurd h3 h, absurd h4 h]

/-- Witness for the amended C6: hour_from = 25 is rejected by both
functions with zero retrieval attempts. -/
theorem preflight_parameter_checks_witness :
    (¬ ((0 : Int) ≤ 25 ∧ (25 : Int) < 24) ∨ ¬ ((0 : Int) < 20 ∧ (20 : Int) ≤ 24) ∨
      ¬ ((25 : Int) < 20) ∨ ¬ ((1 : Int) ≤ 5 ∧ (5 : Int) ≤ 366) ∨
      ¬ ((1 : Int) = 1 ∨ (1 : Int) = 2)) ∧
    ((read_report 1 2021 5 1 25 20 true none server404).retrievals = 0 ∧
      ∃ e, (read_report 1 2021 5 1 25 20 true none server404).res = .error e) ∧
    (¬ ((0 : Int) ≤ 25 ∧ (25 : Int) < 24) ∨ ¬ ((0 : Int) < 20 ∧ (20 : Int) ≤ 24) ∨
      ¬ ((25 : Int) < 20) ∨ ¬ ((1 : Int) = 1 ∨ (1 : Int) = 2)) ∧
    ((read_several_reports 1 [(2021, 5)] 1 25 20 true none server404).retrievals = 0 ∧
      ∃ e, (read_several_reports 1 [(2021, 5)] 1 25 20 true none server404).res
        = .error e) :=
  ⟨by decide,
   (preflight_parameter_checks 1 2021 5 1 25 20 true none server404 [(2021, 5)]).1
     (by decide),
   by decide,
   (preflight_parameter_checks 1 2021 5 1 25 20 true none server404 [(2021, 5)]).2
     (by decide)⟩

/-! ### C9 -/

/-- C9: under valid parameters, `read_report` returns an empty DataFrame
together with a warning exactly when the server answers 404 (the day's
data does not exist); any other failure status makes the fetch raise the
HTTP error with no warning, so a transport error is never treated as the
non-fatal empty-day case. -/
theorem read_report_empty_day_iff
    (tms_id year day direction hour_from hour_to : Int) (delete_if_faulty : Bool)
    (save_name : Option String) (server : Int → Int → Int → HttpResponse)
    (hhf : 0 ≤ hour_from ∧ hour_from < 24) (hht : 0 < hour_to ∧ hour_to ≤ 24)
    (hlt : hour_from < hour_to) (hday : 1 ≤ day ∧ day ≤ 366) (hyear : 1995 ≤ year)
    (hdir : direction = 1 ∨ direction = 2) :
    (((read_report tms_id year day direction hour_from hour_to delete_if_faulty
        save_name server).res = .ok [] ∧
      (read_report tms_id year day direction hour_from hour_to delete_if_faulty
        save_name server).warnings ≠ []) ↔ (server tms_id year day).status = 404) ∧
    ((server tms_id year day).status ≠ 404 → (server tms_id year day).status ≠ 200 →
      (read_report tms_id year day direction hour_from hour_to delete_if_faulty
        save_name server).res = .error msgHttp ∧
      (read_report tms_id year day direction hour_from hour_to delete_if_faulty
        save_name server).warnings = []) := by
  simp only [read_report]
  rw [if_neg (not_not_intro hhf), if_neg (not_not_intro hht), if_neg (not_not_intro hlt),
    if_neg (not_not_intro hday), if_neg (not_not_intro hyear), if_neg (not_not_intro hdir)]
  by_cases h404 : (server tms_id year day).status = 404
  · rw [if_neg (not_not_intro h404)]
    cases save_name <;>
      exact ⟨⟨fun _ => h404, fun _ => ⟨rfl, by simp⟩⟩, fun hne _ => absurd h404 hne⟩
  · rw [if_pos h404]
    by_cases h200 : (server tms_id year day).status = 200
    · rw [if_pos h200]
      cases save_name with
      | none => exact ⟨by simp [h404], fun _ hn => absurd h200 hn⟩
      | some name =>
        dsimp only
        by_cases hgz : name.toLower.endsWith ".gzip" = true
        · rw [if_pos hgz]
          exact ⟨by simp [h404], fun _ hn => absurd h200 hn⟩
        · rw [if_neg hgz]
          exact ⟨by simp [h404], fun _ hn => absurd h200 hn⟩
    · rw [if_neg h200]
      exact ⟨by simp [h404], fun _ _ => ⟨rfl, rfl⟩⟩

/-- Witness for C9 at a concrete world: the all-404 server makes the
sample call return an empty DataFrame with a warning. -/
theorem read_report_empty_day_iff_witness :
    ((0 : Int) ≤ 6 ∧ (6 : Int) < 24) ∧ ((0 : Int) < 20 ∧ (20 : Int) ≤ 24) ∧
    ((6 : Int) < 20) ∧ ((1 : Int) ≤ 5 ∧ (5 : Int) ≤ 366) ∧ ((1995 : Int) ≤ 2021) ∧
    ((1 : Int) = 1 ∨ (1 : Int) = 2) ∧
    ((((read_report 1 2021 5 1 6 20 true none server404).res = .ok [] ∧
      (read_report 1 2021 5 1 6 20 true none server404).warnings ≠ []) ↔
        (server404 1 2021 5).status = 404) ∧
    ((server404 1 2021 5).status ≠ 404 → (server404 1 2021 5).status ≠ 200 →
      (read_report 1 2021 5 1 6 20 true none server404).res = .error msgHttp ∧
      (read_report 1 2021 5 1 6 20 true none server404).warnings = [])) :=
  ⟨by decide, by decide, by decide, by decide, by decide, by decide,
    read_report_empty_day_iff 1 2021 5 1 6 20 true none server404
      (by decide) (by decide) (by decide) (by decide) (by decide) (by decide)⟩

/-! ### C7 and C8 -/

theorem wmLoop_spec (lb : Option ℚ) (bag : BagData) (clock : Nat → ℚ) :
    ∀ (taus : List ℚ) (i : Nat),
      (wmLoop lb bag clock taus i).bagged_model.length = taus.length ∧
      (wmLoop lb bag clock taus i).time_weighted.length = taus.length ∧
      (wmLoop lb bag clock taus i).bagged_model.map (fun m => m.tau) = taus ∧
      (wmLoop lb bag clock taus i).events
        = taus.flatMap (fun tau =>
            [SolverEvent.construct tau, SolverEvent.setlb tau, SolverEvent.solve tau]) ∧
      (wmLoop lb bag clock taus i).bagged_model.map (fun m => m.beta_lb)
        = List.replicate taus.length none ∧
      (wmLoop lb bag clock taus i).bagged_model.map (fun m => m.optimized)
        = List.replicate taus.length true := by
  intro taus
  induction taus with
  | nil => intro i; simp [wmLoop]
  | cons tau rest ih =>
    intro i
    obtain ⟨hlen, htime, htau, hev, hlb, hopt⟩ := ih (i + 2)
    simp [wmLoop, wCQR, setlbNone, optimizeModel, hlen, htime, htau, hev, hlb, hopt,
      List.replicate_succ]

/-- C7: for every call to `weighted_model` with a tau list of length k,
exactly k fitted models are produced, in the same order as the tau values
in the input list, and exactly k wall-clock durations are recorded, one
per fit, so the model list and the duration list both have length k. -/
theorem weighted_model_counts (self_tau_list : List ℚ) (taus : List ℚ)
    (email : Option String) (lb : Option ℚ) (bag : BagData) (clock : Nat → ℚ) :
    (weighted_model self_tau_list (some taus) email lb bag clock).bagged_model.length
      = taus.length ∧
    (weighted_model self_tau_list (some taus) email lb bag clock).time_weighted.length
      = taus.length ∧
    (weighted_model self_tau_list (some taus) email lb bag clock).bagged_model.map
        (fun m => m.tau) = taus := by
  obtain ⟨hlen, htime, htau, -, -, -⟩ := wmLoop_spec lb bag clock taus 0
  exact ⟨hlen, htime, htau⟩

/-- C8: for every tau in the requested list, `weighted_model` disables the
lower bound on the solver's `beta` coefficient after constructing the
solver model and before invoking the solve, on every iteration of the
per-tau loop; consequently every produced model has no lower bound and has
been optimized after the bound was removed. -/
theorem weighted_model_setlb_before_solve (self_tau_list : List ℚ) (taus : List ℚ)
    (email : Option String) (lb : Option ℚ) (bag : BagData) (clock : Nat → ℚ) :
    (weighted_model self_tau_list (some taus) email lb bag clock).events
      = taus.flatMap (fun tau =>
          [SolverEvent.construct tau, SolverEvent.setlb tau, SolverEvent.solve tau]) ∧
    (weighted_model self_tau_list (some taus) email lb bag clock).bagged_model.map
        (fun m => m.beta_lb) = List.replicate taus.length none ∧
    (weighted_model self_tau_list (some taus) email lb bag clock).bagged_model.map
        (fun m => m.optimized) = List.replicate taus.length true := by
  obtain ⟨-, -, -, hev, hlb, hopt⟩ := wmLoop_spec lb bag clock taus 0
  exact ⟨hev, hlb, hopt⟩
